import Mathlib

/-!
Verification of the query-execution core of the `modular_sql_client` repository.

The embedding covers:

* `database.py` — `RunnableQuery.run` (the worker that connects, executes,
  classifies, fetches/commits, and emits the `finished`/`error` signals), its
  lock-guarded cancellation checkpoints, the exception handler that
  string-matches driver interrupt messages, and the `finally` cleanup block.
* `ui/main_window.py` — the per-tab ("slot") bookkeeping of
  `execute_query`, `handle_query_timeout` and `cancel_current_query`:
  the `running_queries` map, the single-shot timeout timer (`QUERY_TIMEOUT`),
  and the user-visible terminal notifications each handler produces.

Modelling conventions:

* SQL text and messages are `List Char` (ASCII case folding, as in the SQL
  keywords the classifier inspects); `pyLower`, `pyStrip`, `pyStartsWith`
  and `pyContains` mirror Python's `str.lower`, `str.strip`,
  `str.startswith` and the `in` substring operator.
* The backend drivers (sqlite3 / psycopg2) are an oracle (`Backend`) giving
  the outcome of `connect`, `cursor.execute`, `cursor.description`,
  `cursor.fetchall()` and `cursor.rowcount`.  `cursor()`, `commit()` and
  `fetchall()` themselves are assumed not to raise; `int(port)` succeeds
  (ports are stored as integers by the catalog); the connection dicts built
  by the UI always carry every key, so no `KeyError` arises.
* The cancellation flag `_is_cancelled` is set once by `cancel` and never
  cleared, so an execution is described by the instant `cancelAt` at which
  the flag becomes set, measured against the six points where `run` reads
  the flag (checkpoint 1, checkpoint 2, checkpoint 3, the pre-fetch test,
  checkpoint 4, and the reads inside the two `except` handlers).
* Wall-clock elapsed time (a float in the `finished` signal) is not modelled;
  the other four payload components of the signal are.
-/

/-! ## Python string primitives -/

/-- SQL text and driver messages, as sequences of characters. -/
abbrev Str := List Char

/-- Python `str.lower`, on the ASCII range Python and `Char.toLower`
agree (non-ASCII characters do not occur in the inputs modelled). -/
def pyLower (s : Str) : Str := s.map Char.toLower

/-- The whitespace characters stripped by Python `str.strip()`
(space, tab, newline, carriage return, vertical tab, form feed). -/
def pyIsSpace (c : Char) : Bool :=
  c.toNat == 32 || c.toNat == 9 || c.toNat == 10 ||
  c.toNat == 13 || c.toNat == 11 || c.toNat == 12

/-- Python `str.strip()`: drop whitespace from both ends. -/
def pyStrip (s : Str) : Str :=
  ((s.dropWhile pyIsSpace).reverse.dropWhile pyIsSpace).reverse

/-- Python `str.startswith`. -/
def pyStartsWith (pre s : Str) : Bool := pre.isPrefixOf s

/-- Python's `pat in s` substring test. -/
def pyContains (pat : Str) : Str → Bool
  | [] => pat.isPrefixOf ([] : Str)
  | c :: rest => pat.isPrefixOf (c :: rest) || pyContains pat rest

/-! ## Data model -/

/-- A connection descriptor as built by `refresh_all_comboboxes`
(`main_window.py` lines 497–498): a dict that always carries the keys
`host`, `database`, `user`, `password`, `port`, `db_path`.  `db_path`
is `none` when the stored value is SQL `NULL` (Python `None`); a present
but empty string is `some []`.  Both are falsy for the backend test. -/
structure ConnData where
  db_path : Option Str
  host : Str
  database : Str
  user : Str
  password : Str
  port : Int
deriving DecidableEq

/-- Python truthiness of `"db_path" in conn_data and conn_data["db_path"]`
(`database.py` lines 62–63). -/
def dbPathTruthy (c : ConnData) : Bool :=
  match c.db_path with
  | some s => !s.isEmpty
  | none => false

/-- The two backend kinds dispatched in `database.py` lines 62–72. -/
inductive DBType
  | sqlite
  | postgres
deriving DecidableEq

/-- Which connect call a descriptor selects (`database.py` lines 62–63). -/
def kindOf (c : ConnData) : DBType :=
  if dbPathTruthy c then DBType.sqlite else DBType.postgres

/-- A Python exception as observed by the two `except` clauses of
`run`: `isOpOrCanceled` says whether it is an instance of
`(sqlite3.OperationalError, psycopg2.errors.QueryCanceled)` (first
clause, line 111); `msg` is `str(e)`. -/
structure Exc where
  isOpOrCanceled : Bool
  msg : Str
deriving DecidableEq

/-- Oracle for one execution's backend behaviour: outcome of `connect`
and `cursor.execute` (`none` = returns normally, `some e` = raises `e`),
plus `cursor.description` (column names; `none` = Python `None`),
`cursor.fetchall()` and `cursor.rowcount`. -/
structure Backend where
  connectOk : Option Exc
  executeExc : Option Exc
  description : Option (List Str)
  rows : List (List Str)
  rowcount : Int
deriving DecidableEq

/-- The two signals of `QuerySignals` (`database.py` lines 11–16); the
float `elapsed_time` argument of `finished` is not modelled. -/
inductive Event
  | finished (results : List (List Str)) (columns : List Str)
      (rowCount : Int) (isSelect : Bool)
  | error (msg : Str)
deriving DecidableEq

/-- The `isSelect` payload of a `finished` signal, if any. -/
def Event.isSelFlag : Event → Option Bool
  | Event.finished _ _ _ s => some s
  | Event.error _ => none

/-- Observable outcome of one call to `RunnableQuery.run`:
the signals emitted, which backend connect was invoked (if any), how
often `local_conn.close()` ran, whether `commit`/`fetchall` ran, and
whether the handle was ever published to `self.conn`. -/
structure RunResult where
  events : List Event
  connectedKind : Option DBType
  closeCount : Nat
  commitCalled : Bool
  fetchCalled : Bool
  connPublished : Bool
deriving DecidableEq

/-! ## Cancellation flag timeline

`run` reads `_is_cancelled` at six program points, in this order:

* index 0 — checkpoint 1, line 55;
* index 1 — checkpoint 2, line 76;
* index 2 — checkpoint 3, line 85;
* index 3 — the pre-fetch test, line 96;
* index 4 — checkpoint 4, line 104;
* index 5 — the `if not self._is_cancelled` tests in the handlers,
  lines 116 and 119.

`cancelAt = some t` means `cancel` set the flag before the read with
index `t` (and after the read with index `t - 1`, when both occur on
the path taken); `none` means the flag is never set. -/
def flagAt (cancelAt : Option Nat) (i : Nat) : Bool :=
  match cancelAt with
  | none => false
  | some t => decide (t ≤ i)

/-! ## RunnableQuery.run -/

/-- The classification at `database.py` line 89:
`self.query.lower().strip().startswith("select")`. -/
def isSelectQuery (q : Str) : Bool :=
  pyStartsWith "select".data (pyStrip (pyLower q))

/-- The message test of the first `except` clause (line 113):
`"interrupted" in str(e).lower() or "canceled" in str(e).lower()`. -/
def suppressedMsg (e : Exc) : Bool :=
  pyContains "interrupted".data (pyLower e.msg) ||
  pyContains "canceled".data (pyLower e.msg)

/-- The two `except` clauses of `run` (lines 111–120): the first catches
`(sqlite3.OperationalError, psycopg2.errors.QueryCanceled)` and drops the
exception silently when its message matches `suppressedMsg`; otherwise
(and in the generic second clause) `error` is emitted only when the
cancellation flag is unset at that moment (`flagSet`). -/
def handlerEvents (e : Exc) (flagSet : Bool) : List Event :=
  if e.isOpOrCanceled then
    if suppressedMsg e then []
    else if !flagSet then [Event.error e.msg] else []
  else if !flagSet then [Event.error e.msg] else []

/-- Lines 88–109 of `run`: classification, fetch-or-commit, checkpoint 4
and the `finished` emit, entered with a published connection after
checkpoint 3 passed and `cursor.execute` returned normally.  The
`closeCount` of 1 on every branch is the `finally` block's
`local_conn.close()` (lines 121–125). -/
def selectBranch (kind : DBType) (q : Str) (b : Backend) (cancelAt : Option Nat) :
    RunResult :=
  if isSelectQuery q then
    match b.description with
    | some cols =>
      if !cols.isEmpty then
        if !(flagAt cancelAt 3) then
          if flagAt cancelAt 4 then
            ⟨[], some kind, 1, false, true, true⟩
          else
            ⟨[Event.finished b.rows cols (Int.ofNat b.rows.length) true],
              some kind, 1, false, true, true⟩
        else
          if flagAt cancelAt 4 then
            ⟨[], some kind, 1, false, false, true⟩
          else
            ⟨[Event.finished [] cols 0 true], some kind, 1, false, false, true⟩
      else
        if flagAt cancelAt 4 then
          ⟨[], some kind, 1, false, false, true⟩
        else
          ⟨[Event.finished [] [] 0 true], some kind, 1, false, false, true⟩
    | none =>
      if flagAt cancelAt 4 then
        ⟨[], some kind, 1, false, false, true⟩
      else
        ⟨[Event.finished [] [] 0 true], some kind, 1, false, false, true⟩
  else
    if flagAt cancelAt 4 then
      ⟨[], some kind, 1, true, false, true⟩
    else
      ⟨[Event.finished [] []
          (if b.rowcount = -1 then 0 else b.rowcount) false],
        some kind, 1, true, false, true⟩

/-- `RunnableQuery.run` (`database.py` lines 51–125).  The branches, in
source order: checkpoint 1 (lines 54–56); the empty-descriptor
`ConnectionError` (lines 59–60, caught by the generic handler); the
backend dispatch and connect (lines 62–72); checkpoint 2, which closes
the fresh handle itself and then returns through the `finally` block —
which closes it again, since the local variable is still truthy (lines
75–78 and 121–125); publication of `self.conn` (line 79);
`cursor.execute` (line 82); checkpoint 3 (lines 84–86); then
`selectBranch`.  Each `closeCount` counts every `local_conn.close()`
executed on the path, including the one in `finally`. -/
def run (conn_data : Option ConnData) (query : Str) (b : Backend)
    (cancelAt : Option Nat) : RunResult :=
  if flagAt cancelAt 0 then
    ⟨[], none, 0, false, false, false⟩
  else
    match conn_data with
    | none =>
      ⟨handlerEvents ⟨false, "Incomplete connection information.".data⟩
          (flagAt cancelAt 5), none, 0, false, false, false⟩
    | some c =>
      match b.connectOk with
      | some e =>
        ⟨handlerEvents e (flagAt cancelAt 5), some (kindOf c), 0,
          false, false, false⟩
      | none =>
        if flagAt cancelAt 1 then
          ⟨[], some (kindOf c), 2, false, false, false⟩
        else
          match b.executeExc with
          | some e =>
            ⟨handlerEvents e (flagAt cancelAt 5), some (kindOf c), 1,
              false, false, true⟩
          | none =>
            if flagAt cancelAt 2 then
              ⟨[], some (kindOf c), 1, false, false, true⟩
            else
              selectBranch (kindOf c) query b cancelAt

/-! ## Execution coordinator (`ui/main_window.py`) -/

/-- `MainWindow.QUERY_TIMEOUT` (line 22), in milliseconds. -/
def QUERY_TIMEOUT : Nat := 60000

/-- Per-tab coordinator state: whether `running_queries` holds a task for
this tab (and which), and whether a `tab_timers` entry is active. -/
structure SlotState where
  runningTask : Option Nat
  timersActive : Bool
deriving DecidableEq

/-- Terminal notifications the user observes for one tab: the
success/error surfaces of `handle_query_result` / `handle_query_error`,
the "Query cancelled by user." surface of `cancel_current_query`, and
the "Query Timed Out after N seconds" surface of `handle_query_timeout`. -/
inductive Notif
  | success (results : List (List Str)) (columns : List Str)
      (rowCount : Int) (isSelect : Bool)
  | error (msg : Str)
  | cancelled
  | timedOut (ms : Nat)
deriving DecidableEq

/-- How each worker signal surfaces to the user. -/
def eventToNotif : Event → Notif
  | Event.finished r c n s => Notif.success r c n s
  | Event.error m => Notif.error m

/-- Outcome of `MainWindow.execute_query`'s admission logic
(lines 503–519). -/
inductive SubmitOutcome
  | busy
  | emptyInput
  | started (id : Nat)
deriving DecidableEq

/-- `MainWindow.execute_query` slot bookkeeping (lines 503–553): reject
when the tab is already in `running_queries` (the warning dialog, lines
507–510); reject when the database choice or query text is empty (lines
517–519); otherwise record the new runnable and arm the timers. -/
def executeQuery (st : SlotState) (hasConnAndQuery : Bool) (newId : Nat) :
    SubmitOutcome × SlotState :=
  if st.runningTask.isSome then
    (SubmitOutcome.busy, st)
  else if !hasConnAndQuery then
    (SubmitOutcome.emptyInput, st)
  else
    (SubmitOutcome.started newId, ⟨some newId, true⟩)

/-- `MainWindow.handle_query_timeout` (lines 627–644): guarded by
`running_queries.get(tab) is runnable`; on firing it invokes
`runnable.cancel()` (the returned `Bool`), clears the tab's timer and
task records, and shows the timed-out message naming `QUERY_TIMEOUT`. -/
def handleQueryTimeout (st : SlotState) (rid : Nat) :
    SlotState × List Notif × Bool :=
  if st.runningTask = some rid then
    (⟨none, false⟩, [Notif.timedOut QUERY_TIMEOUT], true)
  else
    (st, [], false)

/-- `MainWindow.cancel_current_query` (lines 646–663): if the current tab
has a runnable, invoke its `cancel()` (the returned `Bool`), stop and
drop the timers, clear the task record and show "Query cancelled by
user."; otherwise do nothing. -/
def cancelCurrentQuery (st : SlotState) : SlotState × List Notif × Bool :=
  match st.runningTask with
  | some _ => (⟨none, false⟩, [Notif.cancelled], true)
  | none => (st, [], false)

/-- Notifications the caller receives from the worker alone on one run
(no cancel or timeout was requested for the task). -/
def notifsOfRun (conn_data : Option ConnData) (q : Str) (b : Backend)
    (cancelAt : Option Nat) : List Notif :=
  (run conn_data q b cancelAt).events.map eventToNotif

/-- Notifications the caller receives when the user cancels a running
task: the coordinator's synchronous cancel surface followed by whatever
the worker still emits, its flag having been set at instant `t`. -/
def submittedThenCancelled (st : SlotState) (conn_data : Option ConnData)
    (q : Str) (b : Backend) (t : Nat) : List Notif :=
  (cancelCurrentQuery st).2.1 ++ notifsOfRun conn_data q b (some t)

/-! ## Helper lemmas -/

/-- The cancellation flag is set-once: once observed set, every later
read observes it set. -/
theorem flagAt_mono {cancelAt : Option Nat} {i j : Nat} (hij : i ≤ j)
    (h : flagAt cancelAt i = true) : flagAt cancelAt j = true := by
  cases cancelAt with
  | none => simp [flagAt] at h
  | some t =>
    simp only [flagAt, decide_eq_true_eq] at h ⊢
    omega

/-- Contrapositive of `flagAt_mono`: a later read observing the flag
unset means every earlier read observed it unset. -/
theorem flagAt_false_mono {cancelAt : Option Nat} {i j : Nat} (hij : i ≤ j)
    (h : flagAt cancelAt j = false) : flagAt cancelAt i = false := by
  cases hfi : flagAt cancelAt i with
  | false => rfl
  | true => rw [flagAt_mono hij hfi] at h; exact h.symm ▸ rfl

/-- `Char.ofNat` on a valid codepoint round-trips through `toNat`. -/
theorem char_toNat_ofNat {n : Nat} (h : n.isValidChar) :
    (Char.ofNat n).toNat = n := by
  unfold Char.ofNat
  rw [dif_pos h]
  unfold Char.ofNatAux Char.toNat
  simp [UInt32.toNat]

/-- ASCII lowering never turns a whitespace character into a
non-whitespace one or conversely. -/
theorem pyIsSpace_toLower (c : Char) :
    pyIsSpace (Char.toLower c) = pyIsSpace c := by
  by_cases h : c.toNat ≥ 65 ∧ c.toNat ≤ 90
  · have hv : (c.toNat + 32).isValidChar := Or.inl (by omega)
    have L : pyIsSpace (Char.ofNat (c.toNat + 32)) = false := by
      simp [pyIsSpace, char_toNat_ofNat hv]
      omega
    have R : pyIsSpace c = false := by
      simp [pyIsSpace]
      omega
    rw [Char.toLower, if_pos h, L, R]
  · rw [Char.toLower, if_neg h]

/-- Stripping after lowering equals lowering after stripping. -/
theorem pyStrip_pyLower (s : Str) :
    pyStrip (pyLower s) = pyLower (pyStrip s) := by
  have hcomp : pyIsSpace ∘ Char.toLower = pyIsSpace :=
    funext fun c => pyIsSpace_toLower c
  unfold pyStrip pyLower
  rw [List.dropWhile_map, hcomp, ← List.map_reverse, List.dropWhile_map,
    hcomp, ← List.map_reverse]

/-- Modelled from the spec: "a statement is treated as row-returning if
and only if its text, trimmed and case-folded, begins with the literal
token `select`" — trimming first, then folding, then testing the prefix
`select`. -/
def specRowReturning (q : Str) : Bool :=
  pyStartsWith "select".data (pyLower (pyStrip q))

/-- The source classifier (lower, then strip, then prefix test) agrees
with the spec's reading (trim, then case-fold, then prefix test). -/
theorem isSelectQuery_eq_spec (q : Str) :
    isSelectQuery q = specRowReturning q := by
  unfold isSelectQuery specRowReturning
  rw [pyStrip_pyLower]

/-- If the cancellation flag is set before checkpoint 4, the worker
emits no signal at all: every emit in `run` is guarded by a later or
equal flag read. -/
theorem run_events_nil_of_flag4 (conn_data : Option ConnData) (q : Str)
    (b : Backend) (cancelAt : Option Nat) (h : flagAt cancelAt 4 = true) :
    (run conn_data q b cancelAt).events = [] := by
  have h5 : flagAt cancelAt 5 = true := flagAt_mono (by omega) h
  unfold run selectBranch handlerEvents
  rw [h, h5]
  (repeat' split) <;> simp_all

/-! ## Concrete fixtures for witnesses and counterexamples -/

/-- A file-backend descriptor (truthy `db_path`). -/
def cdFile : ConnData := ⟨some "/tmp/a.db".data, [], [], [], [], 0⟩

/-- A descriptor with every network field populated and an empty
(falsy) `db_path`. -/
def cdNet : ConnData :=
  ⟨some [], "localhost".data, "db".data, "u".data, "p".data, 5432⟩

/-- A backend run that succeeds, returning one column and one row. -/
def bPlain : Backend := ⟨none, none, some ["c".data], [["1".data]], -1⟩

/-- A backend whose `cursor.execute` raises `sqlite3.OperationalError`
with a message containing "canceled". -/
def bInterrupted : Backend :=
  ⟨none, some ⟨true, "no such column: canceled".data⟩, none, [], -1⟩

/-- A backend run for a row-affecting statement: 3 rows affected. -/
def bUpdate : Backend := ⟨none, none, none, [], 3⟩

/-- A backend run whose cursor yields no result-set metadata. -/
def bNoDesc : Backend := ⟨none, none, none, [], -1⟩

/-! ## Claims -/

/-- If the exception is not silently suppressed and the flag is unset,
the handler emits exactly one `error` signal. -/
theorem handlerEvents_length_one (e : Exc)
    (h : (e.isOpOrCanceled && suppressedMsg e) = false) :
    (handlerEvents e false).length = 1 := by
  unfold handlerEvents
  cases hop : e.isOpOrCanceled <;> simp_all

/-- C1 counterexample: a submission whose backend raises
`sqlite3.OperationalError` with "canceled" in its message, the
cancellation flag never having been set, ends with zero terminal
notifications — refuting "never zero". -/
theorem C1_counterexample :
    notifsOfRun (some cdFile) "select * from t".data bInterrupted none = [] := by
  rfl

/-- C1 (amended): per submit the worker never delivers more than one
terminal notification; when no cancellation is requested it delivers
exactly one, unless the backend raised an
`OperationalError`/`QueryCanceled` whose message contains "interrupted"
or "canceled" — then it delivers zero (silent drop); and when a cancel
is requested before the final checkpoint, the caller receives exactly
the coordinator's single cancelled notification. -/
theorem C1_exactly_one_notification :
    (∀ conn_data q b cancelAt,
      ((run conn_data q b cancelAt).events).length ≤ 1) ∧
    (∀ conn_data q b,
      (∀ e, b.connectOk = some e →
        (e.isOpOrCanceled && suppressedMsg e) = false) →
      (∀ e, b.executeExc = some e →
        (e.isOpOrCanceled && suppressedMsg e) = false) →
      (notifsOfRun conn_data q b none).length = 1) ∧
    (∀ st rid conn_data q b t, st.runningTask = some rid →
      flagAt (some t) 4 = true →
      (submittedThenCancelled st conn_data q b t).length = 1) := by
  refine ⟨?_, ?_, ?_⟩
  · intro conn_data q b cancelAt
    unfold run selectBranch handlerEvents
    (repeat' split) <;> simp_all
  · intro conn_data q b h1 h2
    cases conn_data with
    | none => rfl
    | some c =>
      unfold notifsOfRun run selectBranch
      cases hb : b.connectOk with
      | some e =>
        simpa [flagAt] using handlerEvents_length_one e (h1 e hb)
      | none =>
        cases hx : b.executeExc with
        | some e =>
          simpa [flagAt] using handlerEvents_length_one e (h2 e hx)
        | none =>
          simp only [flagAt]
          (repeat' split) <;> simp_all
  · intro st rid conn_data q b t hst h4
    unfold submittedThenCancelled cancelCurrentQuery notifsOfRun
    rw [hst, run_events_nil_of_flag4 conn_data q b (some t) h4]
    rfl

/-- C1 witness for the amended statement: a plain successful run with no
cancel delivers exactly one notification. -/
theorem C1_witness :
    (notifsOfRun (some cdFile) "select 1".data bPlain none).length = 1 :=
  C1_exactly_one_notification.2.1 (some cdFile) "select 1".data bPlain
    (fun e he => by simp [bPlain] at he) (fun e he => by simp [bPlain] at he)

/-- C2: when the backend raises a driver interrupt/cancel exception
(an `OperationalError`/`QueryCanceled` whose message matches the
interrupt test) while the task's cancellation flag is set, the caller
receives exactly the cancelled notification and never an error. -/
theorem C2_interrupt_is_cancelled (st : SlotState) (rid : Nat) (c : ConnData)
    (q : Str) (b : Backend) (e : Exc) (t : Nat)
    (hst : st.runningTask = some rid) (hconn : b.connectOk = none)
    (hexc : b.executeExc = some e) (hop : e.isOpOrCanceled = true)
    (hmsg : suppressedMsg e = true) :
    submittedThenCancelled st (some c) q b t = [Notif.cancelled] := by
  unfold submittedThenCancelled cancelCurrentQuery notifsOfRun run handlerEvents
  rw [hst]
  simp only [hconn, hexc, hop, hmsg]
  split_ifs <;> rfl

/-- C2 witness at a concrete interrupted execution. -/
theorem C2_witness :
    submittedThenCancelled ⟨some 7, true⟩ (some cdFile) "select 1".data
      bInterrupted 2 = [Notif.cancelled] :=
  C2_interrupt_is_cancelled ⟨some 7, true⟩ 7 cdFile "select 1".data
    bInterrupted ⟨true, "no such column: canceled".data⟩ 2 rfl rfl rfl rfl
    (by rfl)

/-- C3 counterexample: a cancel landing between checkpoint 1 and
checkpoint 2 makes `run` close the same fresh connection handle twice —
once inside checkpoint 2 and once more in the `finally` block — refuting
"no path closes the same connection handle more than once". -/
theorem C3_counterexample :
    (run (some cdFile) "select 1".data bPlain (some 1)).closeCount = 2 := by
  rfl

/-- C3 (amended): on every run that establishes a connection, the handle
is closed exactly once — except on the checkpoint-2 cancellation path,
where it is closed twice (once by the checkpoint itself and once more by
the guaranteed-cleanup block, which still sees the truthy local). -/
theorem C3_close_count (c : ConnData) (q : Str) (b : Backend)
    (cancelAt : Option Nat) (hconn : b.connectOk = none)
    (h0 : flagAt cancelAt 0 = false) :
    (run (some c) q b cancelAt).closeCount =
      if flagAt cancelAt 1 = true then 2 else 1 := by
  unfold run selectBranch
  simp only [hconn, h0]
  (repeat' split) <;> simp_all

/-- C3 witness for the amended statement: with no cancel before
checkpoint 2 the connection is closed exactly once. -/
theorem C3_witness :
    (run (some cdFile) "select 1".data bPlain (some 5)).closeCount =
      if flagAt (some 5) 1 = true then 2 else 1 :=
  C3_close_count cdFile "select 1".data bPlain (some 5) rfl rfl

/-- C4: on every run reaching the classification point, the emitted
`finished` signal's row-returning flag equals the spec classification
(trimmed, case-folded text beginning with `select`); every non-select
statement is auto-committed and reports the backend rowcount with the
cannot-report value `-1` clamped to zero. -/
theorem C4_classification (c : ConnData) (q : Str) (b : Backend)
    (cancelAt : Option Nat) (hconn : b.connectOk = none)
    (hexec : b.executeExc = none) (h4 : flagAt cancelAt 4 = false) :
    (run (some c) q b cancelAt).events.map Event.isSelFlag =
      [some (specRowReturning q)] ∧
    (run (some c) q b cancelAt).commitCalled = !(specRowReturning q) ∧
    (specRowReturning q = false →
      (run (some c) q b cancelAt).events =
        [Event.finished [] [] (if b.rowcount = -1 then 0 else b.rowcount)
          false]) := by
  have h0 : flagAt cancelAt 0 = false := flagAt_false_mono (by omega) h4
  have h1 : flagAt cancelAt 1 = false := flagAt_false_mono (by omega) h4
  have h2 : flagAt cancelAt 2 = false := flagAt_false_mono (by omega) h4
  have h3 : flagAt cancelAt 3 = false := flagAt_false_mono (by omega) h4
  unfold run selectBranch
  rw [isSelectQuery_eq_spec]
  simp only [hconn, hexec, h0, h1, h2, h3, h4]
  cases hs : specRowReturning q <;>
    (repeat' split) <;> simp_all [Event.isSelFlag]

/-- C4 witness: a row-affecting statement is committed and reports the
backend rowcount. -/
theorem C4_witness :
    (run (some cdFile) "UPDATE t SET x=1".data bUpdate none).events =
      [Event.finished [] [] 3 false] := by
  have h := (C4_classification cdFile "UPDATE t SET x=1".data bUpdate none
    rfl rfl rfl).2.2 (by rfl)
  simpa [bUpdate] using h

/-- C5: a submit on a slot that already holds a non-terminal task is
rejected as busy, no second task is constructed or started, and the slot
state is returned unchanged. -/
theorem C5_slot_busy (st : SlotState) (k : Nat)
    (hk : st.runningTask = some k) (input : Bool) (n : Nat) :
    executeQuery st input n = (SubmitOutcome.busy, st) := by
  unfold executeQuery
  rw [hk]
  rfl

/-- C5 witness at a concrete busy slot. -/
theorem C5_witness :
    executeQuery ⟨some 7, true⟩ true 8 = (SubmitOutcome.busy, ⟨some 7, true⟩) :=
  C5_slot_busy ⟨some 7, true⟩ 7 rfl true 8

/-- C6: the timeout watchdog on a still-running task performs the same
slot actions as an external cancel (same cleared state, cancel invoked
on the runnable), delivers exactly the distinguished timed-out
notification carrying the 60 000 ms default, leaves the slot accepting a
new submit immediately, and the cancelled worker emits nothing. -/
theorem C6_timeout (st : SlotState) (rid : Nat)
    (hst : st.runningTask = some rid) (conn_data : Option ConnData)
    (q : Str) (b : Backend) (t m : Nat)
    (hflag : flagAt (some t) 4 = true) :
    handleQueryTimeout st rid = (⟨none, false⟩, [Notif.timedOut 60000], true) ∧
    (handleQueryTimeout st rid).1 = (cancelCurrentQuery st).1 ∧
    (handleQueryTimeout st rid).2.2 = (cancelCurrentQuery st).2.2 ∧
    (executeQuery (handleQueryTimeout st rid).1 true m).1 =
      SubmitOutcome.started m ∧
    (run conn_data q b (some t)).events = [] := by
  have hto : handleQueryTimeout st rid =
      (⟨none, false⟩, [Notif.timedOut QUERY_TIMEOUT], true) := by
    unfold handleQueryTimeout
    rw [if_pos hst]
  have hcc : cancelCurrentQuery st = (⟨none, false⟩, [Notif.cancelled], true) := by
    unfold cancelCurrentQuery
    rw [hst]
  refine ⟨?_, ?_, ?_, ?_, run_events_nil_of_flag4 conn_data q b (some t) hflag⟩
  · rw [hto]
    rfl
  · rw [hto, hcc]
  · rw [hto, hcc]
  · rw [hto]
    rfl

/-- C6 witness at a concrete slot and task. -/
theorem C6_witness :
    handleQueryTimeout ⟨some 7, true⟩ 7 =
      (⟨none, false⟩, [Notif.timedOut 60000], true) :=
  (C6_timeout ⟨some 7, true⟩ 7 rfl (some cdFile) "select 1".data bPlain 0 3
    (by rfl)).1

/-- C7: a task whose cancellation flag is set before checkpoint 1 never
invokes any backend connect, and the caller receives exactly the
cancelled notification (from the coordinator's cancel path). -/
theorem C7_cancel_before_checkpoint1 (st : SlotState) (rid : Nat)
    (hst : st.runningTask = some rid) (conn_data : Option ConnData)
    (q : Str) (b : Backend) :
    submittedThenCancelled st conn_data q b 0 = [Notif.cancelled] ∧
    (run conn_data q b (some 0)).connectedKind = none := by
  have hrun : run conn_data q b (some 0) = ⟨[], none, 0, false, false, false⟩ := by
    unfold run
    rw [if_pos (show flagAt (some 0) 0 = true from rfl)]
  constructor
  · unfold submittedThenCancelled cancelCurrentQuery notifsOfRun
    rw [hst, hrun]
    rfl
  · rw [hrun]

/-- C7 witness at a concrete pre-start cancellation. -/
theorem C7_witness :
    submittedThenCancelled ⟨some 7, true⟩ (some cdFile) "select 1".data
      bPlain 0 = [Notif.cancelled] :=
  (C7_cancel_before_checkpoint1 ⟨some 7, true⟩ 7 rfl (some cdFile)
    "select 1".data bPlain).1

/-- C8: when the backend raises an `OperationalError`/`QueryCanceled`
whose message contains "interrupted" or "canceled" (case-insensitive),
the worker emits nothing at all — for every cancellation timeline,
including the flag never being set: the suppression is decided by the
message text alone. -/
theorem C8_message_only_suppression (c : ConnData) (q : Str) (b : Backend)
    (e : Exc) (cancelAt : Option Nat) (hconn : b.connectOk = none)
    (hexc : b.executeExc = some e) (hop : e.isOpOrCanceled = true)
    (hmsg : suppressedMsg e = true) :
    (run (some c) q b cancelAt).events = [] := by
  unfold run handlerEvents
  simp only [hconn, hexc, hop, hmsg]
  split_ifs <;> rfl

/-- C8 witness: a concrete interrupt-message failure with the flag never
set still produces no signal. -/
theorem C8_witness :
    (run (some cdFile) "select 1".data bInterrupted none).events = [] :=
  C8_message_only_suppression cdFile "select 1".data bInterrupted
    ⟨true, "no such column: canceled".data⟩ none rfl rfl rfl (by rfl)

/-- C9: backend selection gives `db_path` precedence — the task connects
as SQLite exactly when the descriptor's `db_path` is truthy, even with
every network field populated; a falsy descriptor raises
`ConnectionError` (surfaced as an error when the flag is unset) and
invokes no connect at all. -/
theorem C9_backend_dispatch (q : Str) (b : Backend) (cancelAt : Option Nat)
    (h0 : flagAt cancelAt 0 = false) :
    ((run none q b cancelAt).connectedKind = none ∧
     (flagAt cancelAt 5 = false →
       (run none q b cancelAt).events =
         [Event.error "Incomplete connection information.".data])) ∧
    (∀ c : ConnData, (run (some c) q b cancelAt).connectedKind =
      some (if dbPathTruthy c then DBType.sqlite else DBType.postgres)) := by
  refine ⟨⟨?_, ?_⟩, ?_⟩
  · unfold run
    rw [h0]
    rfl
  · intro h5
    unfold run handlerEvents
    rw [h0, h5]
    rfl
  · intro c
    unfold run selectBranch kindOf
    simp only [h0]
    (repeat' split) <;> simp_all

/-- C9 witness: a descriptor with all network fields populated and an
empty `db_path` connects as PostgreSQL. -/
theorem C9_witness :
    (run (some cdNet) "select 1".data bPlain none).connectedKind =
      some DBType.postgres := by
  have h := (C9_backend_dispatch "select 1".data bPlain none rfl).2 cdNet
  simpa [cdNet, dbPathTruthy] using h

/-- C10: a select-classified statement whose cursor yields no result-set
metadata still succeeds with empty columns, empty rows and row count
zero, without fetching and without any error. -/
theorem C10_empty_description (c : ConnData) (q : Str) (b : Backend)
    (cancelAt : Option Nat) (hconn : b.connectOk = none)
    (hexec : b.executeExc = none) (h4 : flagAt cancelAt 4 = false)
    (hsel : isSelectQuery q = true)
    (hdesc : b.description = none ∨ b.description = some []) :
    (run (some c) q b cancelAt).events = [Event.finished [] [] 0 true] ∧
    (run (some c) q b cancelAt).fetchCalled = false := by
  have h0 : flagAt cancelAt 0 = false := flagAt_false_mono (by omega) h4
  have h1 : flagAt cancelAt 1 = false := flagAt_false_mono (by omega) h4
  have h2 : flagAt cancelAt 2 = false := flagAt_false_mono (by omega) h4
  unfold run selectBranch
  simp only [hconn, hexec, h0, h1, h2, h4, hsel]
  rcases hdesc with hd | hd <;> simp [hd]

/-- C10 witness: a concrete select with `cursor.description = None`. -/
theorem C10_witness :
    (run (some cdFile) "select 1".data bNoDesc none).events =
      [Event.finished [] [] 0 true] :=
  (C10_empty_description cdFile "select 1".data bNoDesc none rfl rfl rfl
    (by rfl) (Or.inl rfl)).1
